import Mathlib

/-!
Verification of the water-quality-mapper risk engine against its design
specification.  The Python sources are shallowly embedded: pure numeric
code becomes functions over `Rat` (exact arithmetic stands in for Python
floats), nullable values become `Option`, pandas data frames become a
column-list plus row-lists of cells, and the file-system / network effects
of the data collector become explicit state passing over a `World` and
`FS` record.  Places where the Python can raise are modelled with
`Except`, and the `try/except` handlers of the source map errors to the
`none` results the code returns.
-/

/-- A Python cell value: a number or a string.  `Option PVal` adds NaN/None. -/
inductive PVal where
  | num (q : Rat)
  | str (s : String)
deriving DecidableEq, Repr

/-- A pandas cell: `none` models NaN/None. -/
abbrev Cell := Option PVal

/-- Shallow model of a pandas DataFrame: named columns and rows of cells. -/
structure DataFrame where
  cols : List String
  rows : List (List Cell)
deriving DecidableEq, Repr

/-- Model of `DataFrame.empty`: true when either axis has length zero. -/
def dfEmpty (t : DataFrame) : Bool :=
  t.rows.isEmpty || t.cols.isEmpty

/-- Sum-based mean, the model of pandas `.mean()` on a numeric column. -/
def meanR (xs : List Rat) : Rat :=
  xs.sum / xs.length

/-- Weight applied to total phosphorus in `src/utils/helpers.py`
(`tp_weight: float = 0.99`) and `config.TP_WEIGHT`. -/
def default_tp_weight : Rat := 99/100

/-- Weight applied to total nitrogen in `src/utils/helpers.py`
(`tn_weight: float = 0.01`) and `config.TN_WEIGHT`. -/
def default_tn_weight : Rat := 1/100

/-- Embedding of `helpers.calculate_weighted_score`: `NaN` inputs (here
`none`) propagate to a `none` score, otherwise the weighted sum. -/
def calculate_weighted_score (tp tn : Option Rat) (tpw tnw : Rat) : Option Rat :=
  match tp, tn with
  | some p, some n => some (p * tpw + n * tnw)
  | _, _ => none

/-- Embedding of `helpers.categorize_risk_level`: NaN maps to `unknown`,
otherwise the ascending threshold chain 0.5 / 1.0 / 2.0. -/
def categorize_risk_level : Option Rat → String
  | none => "unknown"
  | some s =>
    if s ≤ 1/2 then "low"
    else if s ≤ 1 then "medium"
    else if s ≤ 2 then "high"
    else "very_high"

/-- Embedding of `integrated_water_quality_map.calculate_alert_level_by_percentile`:
percentile rank (strictly-below count over population size, times 100)
bucketed into five 20-point bands; empty population maps to the first band. -/
def calculate_alert_level_by_percentile (score : Rat) (all_scores : List Rat) : String :=
  if all_scores.length = 0 then "1단계"
  else
    let percentile : Rat := ((all_scores.filter (fun x => x < score)).length : Rat)
      / (all_scores.length : Rat) * 100
    if percentile ≤ 20 then "1단계"
    else if percentile ≤ 40 then "2단계"
    else if percentile ≤ 60 then "3단계"
    else if percentile ≤ 80 then "4단계"
    else "5단계"

/-- Rank-to-band bucketing written from the specification text: five
equal-width 20% bands over the percentile rank. -/
def specBand (rank : Rat) : String :=
  if rank ≤ 20 then "1단계"
  else if rank ≤ 40 then "2단계"
  else if rank ≤ 60 then "3단계"
  else if rank ≤ 80 then "4단계"
  else "5단계"

/-- Percentile classification written from the specification words:
fraction of the population strictly below the value, times 100, bucketed
by `specBand`; an empty population maps every value to the first band. -/
def specPercentileLevel (score : Rat) (pop : List Rat) : String :=
  match pop with
  | [] => "1단계"
  | _ => specBand (100 * ((pop.countP (fun x => decide (x < score)) : Nat) : Rat) / (pop.length : Rat))

/-- Population used by the percentile worked example in the spec. -/
def examplePopulation : List Rat := [1/10, 1/2, 1, 2, 5]

/-- Claim C3: the percentile classifier agrees with the spec's general rule
(strictly-below fraction times 100, five 20% bands, empty population to
band 1), but the spec's worked example is wrong: in the population
`[0.1, 0.5, 1.0, 2.0, 5.0]` the value `1.0` has 2 elements strictly
below it (40%), landing in band 2, not band 3. -/
theorem percentile_example_gives_level_two :
    calculate_alert_level_by_percentile 1 examplePopulation = "2단계"
    ∧ ("2단계" : String) ≠ "3단계"
    ∧ (examplePopulation.filter (fun x => x < (1 : Rat))).length = 2 := by
  refine ⟨?_, by decide, ?_⟩
  · norm_num [calculate_alert_level_by_percentile, examplePopulation, List.filter_cons,
      List.filter_nil, decide_eq_true_eq]
  · norm_num [examplePopulation, List.filter_cons, List.filter_nil, decide_eq_true_eq]

/-- Claim C3 (amended): the percentile classifier computes the rank as the
fraction of the population strictly below the value, times 100, bucketed
into five equal-width 20% bands, with an empty population mapping every
value to band 1; in the example population the value `1.0` ranks at 40%
and is classified band 2 of 5. -/
theorem percentile_classification_matches_spec :
    (∀ score pop, calculate_alert_level_by_percentile score pop = specPercentileLevel score pop)
    ∧ calculate_alert_level_by_percentile 1 examplePopulation = "2단계"
    ∧ (∀ score, calculate_alert_level_by_percentile score [] = "1단계") := by
  refine ⟨?_, ?_, fun score => rfl⟩
  · intro score pop
    cases pop with
    | nil => rfl
    | cons p l =>
      simp only [calculate_alert_level_by_percentile, specPercentileLevel, specBand,
        List.length_cons, Nat.succ_ne_zero, if_false]
      have hrank :
          (((p :: l).filter (fun x => decide (x < score))).length : Rat)
            / ((p :: l).length : Rat) * 100
          = 100 * (((p :: l).countP (fun x => decide (x < score)) : Nat) : Rat)
            / ((p :: l).length : Rat) := by
        rw [List.countP_eq_length_filter]
        ring
      simp only [List.length_cons] at hrank
      simp only [hrank]
  · norm_num [calculate_alert_level_by_percentile, examplePopulation, List.filter_cons,
      List.filter_nil, decide_eq_true_eq]

/-- Claim C4: the weighted index is `phosphorus * 0.99 + nitrogen * 0.01`,
fixed-threshold classification uses the ascending breakpoints
0.5 / 1.0 / 2.0 for low / medium / high / very_high with a null index
mapping to unknown, and the worked example `tp=0.1, tn=2.0` yields
index `0.119`, classified low. -/
theorem weighted_score_fixed_thresholds :
    (∀ p n : Rat, calculate_weighted_score (some p) (some n) default_tp_weight default_tn_weight
        = some (p * (99/100) + n * (1/100)))
    ∧ (∀ x : Rat,
        (categorize_risk_level (some x) = "low" ↔ x ≤ 1/2)
        ∧ (categorize_risk_level (some x) = "medium" ↔ 1/2 < x ∧ x ≤ 1)
        ∧ (categorize_risk_level (some x) = "high" ↔ 1 < x ∧ x ≤ 2)
        ∧ (categorize_risk_level (some x) = "very_high" ↔ 2 < x))
    ∧ categorize_risk_level none = "unknown"
    ∧ calculate_weighted_score (some (1/10)) (some 2) default_tp_weight default_tn_weight
        = some (119/1000)
    ∧ categorize_risk_level (some (119/1000)) = "low" := by
  refine ⟨fun p n => rfl, ?_, rfl, ?_, ?_⟩
  case refine_2 =>
    simp only [calculate_weighted_score, default_tp_weight, default_tn_weight]
    norm_num
  case refine_3 =>
    simp only [categorize_risk_level]
    norm_num
  intro x
  simp only [categorize_risk_level]
  split_ifs with h1 h2 h3 <;>
    refine ⟨⟨fun hh => ?_, fun hh => ?_⟩, ⟨fun hh => ?_, fun hh => ?_⟩,
            ⟨fun hh => ?_, fun hh => ?_⟩, ⟨fun hh => ?_, fun hh => ?_⟩⟩ <;>
    first
      | rfl
      | linarith
      | exact absurd hh (by decide)
      | exact ⟨by linarith, by linarith⟩

/-- Weight applied to total phosphorus in
`src/risk_assessment/alert_system.py` (`tp_weight = 0.99067`). -/
def alert_tp_weight : Rat := 99067/100000

/-- Weight applied to total nitrogen in
`src/risk_assessment/alert_system.py` (`tn_weight = 0.00933`). -/
def alert_tn_weight : Rat := 933/100000

/-- Standard value for total phosphorus configured in the alert
calculator's constructor (`TP_standard = 0.1` mg/L). -/
def tp_standard : Rat := 1/10

/-- Standard value for total nitrogen configured in the alert
calculator's constructor (`TN_standard = 2.0` mg/L). -/
def tn_standard : Rat := 2

/-- The `alert_levels` dict of `WaterQualityAlertCalculator`, in insertion
order: five escalating labels with thresholds at 20%-point steps. -/
def alert_levels : List (String × Rat) :=
  [("1단계", 1/5), ("2단계", 2/5), ("3단계", 3/5), ("4단계", 4/5), ("5단계", 1)]

/-- Result record of `WaterQualityAlertCalculator.calculate_alert_level`
(the fields the claims are about). -/
structure AlertResult where
  alert_level : String
  weighted_index : Option Rat
  weighted_ratio : Option Rat
  tp_ratio : Option Rat
  tn_ratio : Option Rat
deriving DecidableEq, Repr

/-- Embedding of `WaterQualityAlertCalculator.calculate_weighted_index`:
`None` inputs give `None`, otherwise the weighted sum with the alert
calculator's weights. -/
def calculate_weighted_index (tp tn : Option Rat) : Option Rat :=
  match tp, tn with
  | some p, some n => some (p * alert_tp_weight + n * alert_tn_weight)
  | _, _ => none

/-- Embedding of `WaterQualityAlertCalculator.calculate_alert_level`:
per-pollutant ratios against the configured standards (guarded by the
standard being positive), their weighted combination, and the label from
folding over `alert_levels` in order, starting from `정상` and replacing
it by each level whose threshold the weighted ratio reaches. -/
def calculate_alert_level (tp tn : Option Rat) : AlertResult :=
  match tp, tn with
  | some p, some n =>
    let wi := p * alert_tp_weight + n * alert_tn_weight
    let tpr := if 0 < tp_standard then p / tp_standard else 0
    let tnr := if 0 < tn_standard then n / tn_standard else 0
    let wr := tpr * alert_tp_weight + tnr * alert_tn_weight
    let lvl := alert_levels.foldl (fun acc x => if x.2 ≤ wr then x.1 else acc) "정상"
    ⟨lvl, some wi, some wr, some tpr, some tnr⟩
  | _, _ => ⟨"데이터 없음", none, none, none, none⟩

/-- Five-label set the claim asserts the ratio classifier is bounded by:
`정상` plus four escalating labels. -/
def claimedFiveLabels : List String := ["정상", "1단계", "2단계", "3단계", "4단계"]

/-- Claim C6 counterexample: the ratio classifier can output `5단계`, a sixth
label outside the claimed five-label set (`정상` plus four escalating
labels); e.g. readings `tp=1, tn=20` give weighted ratio 10 ≥ 100%. -/
theorem alert_level_sixth_label :
    (calculate_alert_level (some 1) (some 20)).alert_level = "5단계"
    ∧ ("5단계" : String) ∉ claimedFiveLabels := by
  constructor
  · norm_num [calculate_alert_level, alert_levels, alert_tp_weight, alert_tn_weight,
      tp_standard, tn_standard, List.foldl]
  · decide

/-- Claim C6 (amended): the ratio classifier computes per-pollutant ratios
`value / standard`, a weighted ratio, and classifies it against the label
set `정상` plus five escalating labels `1단계`-`5단계` (six possible
outputs) at the ascending breakpoints {20%,40%,60%,80%,100%}: below 20%
the label is `정상`, and the highest reached breakpoint wins. -/
theorem alert_level_ratio_classification :
    ∀ p n : Rat,
      AlertResult.tp_ratio (calculate_alert_level (some p) (some n)) = some (p / tp_standard)
      ∧ AlertResult.tn_ratio (calculate_alert_level (some p) (some n)) = some (n / tn_standard)
      ∧ AlertResult.weighted_ratio (calculate_alert_level (some p) (some n))
          = some ((p / tp_standard) * alert_tp_weight + (n / tn_standard) * alert_tn_weight)
      ∧ (calculate_alert_level (some p) (some n)).alert_level
          = (let wr := (p / tp_standard) * alert_tp_weight + (n / tn_standard) * alert_tn_weight
             if 1 ≤ wr then "5단계"
             else if 4/5 ≤ wr then "4단계"
             else if 3/5 ≤ wr then "3단계"
             else if 2/5 ≤ wr then "2단계"
             else if 1/5 ≤ wr then "1단계"
             else "정상")
      ∧ (calculate_alert_level (some p) (some n)).alert_level
          ∈ ["정상", "1단계", "2단계", "3단계", "4단계", "5단계"] := by
  intro p n
  have hstd1 : (0 : Rat) < tp_standard := by norm_num [tp_standard]
  have hstd2 : (0 : Rat) < tn_standard := by norm_num [tn_standard]
  refine ⟨?_, ?_, ?_, ?_, ?_⟩ <;>
    simp only [calculate_alert_level, alert_levels, List.foldl, if_pos hstd1, if_pos hstd2] <;>
    split_ifs <;> simp

/-- Sum of a weighted combination over a list of pollutant pairs splits
into the weighted combination of the column sums. -/
theorem sum_weighted_map (a b : Rat) (l : List (Rat × Rat)) :
    (l.map (fun r => r.1 * a + r.2 * b)).sum
      = (l.map Prod.fst).sum * a + (l.map Prod.snd).sum * b := by
  induction l with
  | nil => simp
  | cons x xs ih =>
    simp only [List.map_cons, List.sum_cons, ih]
    ring

/-- Claim C10: scoring the group means equals averaging the per-reading scores:
for a non-empty list of (phosphorus, nitrogen) pairs, the weighted score
of the mean phosphorus and mean nitrogen is the mean of the per-pair
weighted scores, so the region-level path (score the regional means) and
the per-reading-average path agree under exact arithmetic. -/
theorem weighted_score_linear_over_mean (l : List (Rat × Rat)) (h : l ≠ []) :
    calculate_weighted_score (some (meanR (l.map Prod.fst))) (some (meanR (l.map Prod.snd)))
        default_tp_weight default_tn_weight
      = some (meanR (l.map (fun r => r.1 * default_tp_weight + r.2 * default_tn_weight))) := by
  have hpos : 0 < l.length := List.length_pos.mpr h
  have hlen : ((l.length : Nat) : Rat) ≠ 0 := by
    exact_mod_cast Nat.pos_iff_ne_zero.mp hpos
  simp only [calculate_weighted_score, meanR, List.length_map, Option.some.injEq]
  rw [sum_weighted_map]
  field_simp

/-- Claim C10 witness: the linearity theorem applied to the concrete two-reading
group [(1, 2), (3, 4)]. -/
theorem weighted_score_linear_over_mean_witness :
    calculate_weighted_score (some (meanR ([((1 : Rat), (2 : Rat)), (3, 4)].map Prod.fst)))
        (some (meanR ([((1 : Rat), (2 : Rat)), (3, 4)].map Prod.snd)))
        default_tp_weight default_tn_weight
      = some (meanR ([((1 : Rat), (2 : Rat)), (3, 4)].map
          (fun r => r.1 * default_tp_weight + r.2 * default_tn_weight))) :=
  weighted_score_linear_over_mean [(1, 2), (3, 4)] (by simp)

/-- Minute mark (ASCII apostrophe) used in the DMS coordinate patterns. -/
def minuteChar : Char := Char.ofNat 39

/-- Seconds mark (ASCII double quote) used in the DMS coordinate patterns. -/
def quoteChar : Char := Char.ofNat 34

/-- Degree sign used in the DMS coordinate patterns. -/
def degreeChar : Char := '°'

/-- Numeric value of a digit string, the model of `float` on an all-digit
regex group. -/
def digitsToNat (ds : List Char) : Nat :=
  ds.foldl (fun n c => 10 * n + (c.toNat - 48)) 0

/-- Value of an integer part `a` and fraction digits `b`, the model of
`float` on a group of the shape `digits [ . digits ]`. -/
def fracVal (a b : List Char) : Rat :=
  (digitsToNat a : Rat) + (digitsToNat b : Rat) / ((10 : Rat) ^ b.length)

/-- Model of Python `str.strip()`: drop leading and trailing whitespace. -/
def pyStrip (cs : List Char) : List Char :=
  ((cs.dropWhile Char.isWhitespace).reverse.dropWhile Char.isWhitespace).reverse

/-- Model of the decimal pre-check in `parse_coordinate`:
`coord_str.replace(".", "").replace("-", "").isdigit()` — after removing
every dot and minus the remainder is non-empty and all digits. -/
def decimalCheck (cs : List Char) : Bool :=
  let t := cs.filter (fun c => !(c == '.' || c == '-'))
  !t.isEmpty && t.all Char.isDigit

/-- Model of Python `float()` on a string made of digits, dots and
minus signs: optional single leading minus, then digits with at most one
dot and at least one digit; `none` models the `ValueError` raise. -/
def pyFloat (cs : List Char) : Option Rat :=
  let (neg, rest) :=
    match cs with
    | '-' :: r => (true, r)
    | _ => (false, cs)
  let a := rest.takeWhile Char.isDigit
  let r1 := rest.dropWhile Char.isDigit
  match r1 with
  | [] =>
    if a.isEmpty then none
    else some (if neg then -(digitsToNat a : Rat) else (digitsToNat a : Rat))
  | c :: r2 =>
    if c == '.' then
      let b := r2.takeWhile Char.isDigit
      let r3 := r2.dropWhile Char.isDigit
      if r3.isEmpty && !(a.isEmpty && b.isEmpty) then
        some (if neg then -(fracVal a b) else fracVal a b)
      else none
    else none

/-- Shared head of the four DMS regexes: one or more digits, the degree
sign, one or more digits, the minute mark; returns degrees, minutes and
the unconsumed tail. -/
def matchCommon (cs : List Char) : Option (Nat × Nat × List Char) :=
  let d1 := cs.takeWhile Char.isDigit
  let r1 := cs.dropWhile Char.isDigit
  if d1.isEmpty then none
  else
    match r1 with
    | [] => none
    | c :: r2 =>
      if c == degreeChar then
        let d2 := r2.takeWhile Char.isDigit
        let r3 := r2.dropWhile Char.isDigit
        if d2.isEmpty then none
        else
          match r3 with
          | [] => none
          | c2 :: r4 => if c2 == minuteChar then some (digitsToNat d1, digitsToNat d2, r4) else none
      else none

/-- Model of the regex fragment `\d+\.?\d*` (greedy, which coincides with
backtracking here): digits, an optional dot, more digits; returns the
group's `float` value and the unconsumed tail. -/
def secondsGroup (cs : List Char) : Option (Rat × List Char) :=
  let a := cs.takeWhile Char.isDigit
  let r1 := cs.dropWhile Char.isDigit
  if a.isEmpty then none
  else
    match r1 with
    | '.' :: r2 => some (fracVal a (r2.takeWhile Char.isDigit), r2.dropWhile Char.isDigit)
    | _ => some ((digitsToNat a : Rat), r1)

/-- Pattern 1 of `parse_coordinate`: common head, then `\d+\.?\d*` and a
closing seconds mark. -/
def matchP1 (cs : List Char) : Option (Nat × Nat × Rat) :=
  (matchCommon cs).bind fun x =>
    (secondsGroup x.2.2).bind fun y =>
      match y.2 with
      | c :: _ => if c == quoteChar then some (x.1, x.2.1, y.1) else none
      | [] => none

/-- Pattern 2 of `parse_coordinate`: common head, a literal dot, then
`\d+\.?\d*` and a closing seconds mark. -/
def matchP2 (cs : List Char) : Option (Nat × Nat × Rat) :=
  (matchCommon cs).bind fun x =>
    match x.2.2 with
    | '.' :: r =>
      (secondsGroup r).bind fun y =>
        match y.2 with
        | c :: _ => if c == quoteChar then some (x.1, x.2.1, y.1) else none
        | [] => none
    | _ => none

/-- Pattern 3 of `parse_coordinate`: common head then `\d+` (a prefix
match: trailing input is ignored, as with `re.match`). -/
def matchP3 (cs : List Char) : Option (Nat × Nat × Rat) :=
  (matchCommon cs).bind fun x =>
    let a := x.2.2.takeWhile Char.isDigit
    if a.isEmpty then none else some (x.1, x.2.1, (digitsToNat a : Rat))

/-- Pattern 4 of `parse_coordinate`: common head, a literal dot, then `\d+`. -/
def matchP4 (cs : List Char) : Option (Nat × Nat × Rat) :=
  (matchCommon cs).bind fun x =>
    match x.2.2 with
    | '.' :: r =>
      let a := r.takeWhile Char.isDigit
      if a.isEmpty then none else some (x.1, x.2.1, (digitsToNat a : Rat))
    | _ => none

/-- The pattern loop of `parse_coordinate`: the four DMS patterns tried
in source order, first match wins. -/
def tryPatterns (cs : List Char) : Option (Nat × Nat × Rat) :=
  match matchP1 cs with
  | some v => some v
  | none =>
    match matchP2 cs with
    | some v => some v
    | none =>
      match matchP3 cs with
      | some v => some v
      | none => matchP4 cs

/-- Decimal-degree value of matched degree/minute/second groups:
`degrees + minutes/60 + seconds/3600`. -/
def dmsValue (d m : Nat) (s : Rat) : Rat :=
  (d : Rat) + (m : Rat) / 60 + s / 3600

/-- Body of the `try` block of `parse_coordinate`: strip, the decimal
pre-check with `float` (whose `ValueError` is the `error` case), then the
pattern loop; `ok none` is the explicit no-match `return None`. -/
def parse_coordinate_body (cs : List Char) : Except Unit (Option Rat) :=
  let s := pyStrip cs
  if decimalCheck s then
    match pyFloat s with
    | some v => Except.ok (some v)
    | none => Except.error ()
  else
    match tryPatterns s with
    | some x => Except.ok (some (dmsValue x.1 x.2.1 x.2.2))
    | none => Except.ok none

/-- Embedding of `parse_coordinate` (identical in
`integrated_water_quality_map.py` and
`WaterQualityCollector._parse_coordinate`): the `except` handler turns
any raise inside the body into `None`. -/
def parse_coordinate (cs : List Char) : Option Rat :=
  match parse_coordinate_body cs with
  | Except.ok v => v
  | Except.error _ => none

/-- A successful common DMS head implies the degree sign occurs in the
input. -/
theorem matchCommon_mem_degree (cs : List Char) (x : Nat × Nat × List Char)
    (h : matchCommon cs = some x) : degreeChar ∈ cs := by
  have hsplit : cs.takeWhile Char.isDigit ++ cs.dropWhile Char.isDigit = cs :=
    List.takeWhile_append_dropWhile Char.isDigit cs
  rcases hd : cs.dropWhile Char.isDigit with _ | ⟨c, r2⟩
  · simp [matchCommon, hd] at h
  · have hc : c = degreeChar := by
      by_contra hne
      simp [matchCommon, hd, hne] at h
    rw [← hsplit, hd, hc]
    simp

/-- A string containing the degree sign fails the decimal pre-check. -/
theorem decimalCheck_false_of_degree (cs : List Char) (h : degreeChar ∈ cs) :
    decimalCheck cs = false := by
  have hmem : degreeChar ∈ cs.filter (fun c => !(c == '.' || c == '-')) := by
    rw [List.mem_filter]
    exact ⟨h, by decide⟩
  have hall : (cs.filter (fun c => !(c == '.' || c == '-'))).all Char.isDigit = false := by
    rcases hb : (cs.filter (fun c => !(c == '.' || c == '-'))).all Char.isDigit with _ | _
    · rfl
    · exact absurd (List.all_eq_true.mp hb degreeChar hmem) (by decide)
  simp only [decimalCheck, hall, Bool.and_false]

/-- Claim C5: whenever one of the four degree-minute-second patterns matches the
stripped coordinate string (first match winning), `parse_coordinate`
returns `degrees + minutes/60 + seconds/3600` for the matched groups. -/
theorem parse_coordinate_dms_value (cs : List Char) (d m : Nat) (s : Rat)
    (h : tryPatterns (pyStrip cs) = some (d, m, s)) :
    parse_coordinate cs = some ((d : Rat) + (m : Rat) / 60 + s / 3600) := by
  have hmc : ∃ x, matchCommon (pyStrip cs) = some x := by
    rcases hm : matchCommon (pyStrip cs) with _ | x
    · exfalso
      have h1 : matchP1 (pyStrip cs) = none := by simp [matchP1, hm]
      have h2 : matchP2 (pyStrip cs) = none := by simp [matchP2, hm]
      have h3 : matchP3 (pyStrip cs) = none := by simp [matchP3, hm]
      have h4 : matchP4 (pyStrip cs) = none := by simp [matchP4, hm]
      rw [tryPatterns, h1, h2, h3, h4] at h
      exact Option.noConfusion h
    · exact ⟨x, rfl⟩
  obtain ⟨x, hx⟩ := hmc
  have hdeg := matchCommon_mem_degree _ _ hx
  have hdc := decimalCheck_false_of_degree _ hdeg
  simp [parse_coordinate, parse_coordinate_body, hdc, h, dmsValue]

/-- Character list of the spec's DMS example string `128°40'35.4"`. -/
def dmsExample : List Char :=
  ['1', '2', '8', '°', '4', '0', Char.ofNat 39, '3', '5', '.', '4', Char.ofNat 34]

/-- Claim C5 witness: on the concrete string `128°40'35.4"` the first pattern
matches with groups (128, 40, 35.4) and the parser returns
`128 + 40/60 + 35.4/3600 = 128.6765` exactly. -/
theorem parse_coordinate_dms_value_witness :
    tryPatterns (pyStrip dmsExample) = some (128, 40, 177/5)
    ∧ parse_coordinate dmsExample
        = some ((128 : Rat) + (40 : Rat) / 60 + ((177 : Rat)/5) / 3600)
    ∧ parse_coordinate dmsExample = some (257353/2000) := by
  refine ⟨by with_unfolding_all rfl,
    parse_coordinate_dms_value dmsExample 128 40 (177/5) (by with_unfolding_all rfl),
    by with_unfolding_all rfl⟩

/-- Claim C9: coordinate parsing is total with a `none` failure signal: an
internal raise (the `float` call on a string passing the decimal
pre-check) is caught and maps to `none`, and a stripped string that fails
the decimal pre-check and matches none of the four DMS patterns also
yields `none`. -/
theorem parse_coordinate_exception_to_none :
    (∀ cs : List Char, parse_coordinate_body cs = Except.error () → parse_coordinate cs = none)
    ∧ (∀ cs : List Char, decimalCheck (pyStrip cs) = false → tryPatterns (pyStrip cs) = none →
        parse_coordinate cs = none) := by
  constructor
  · intro cs h
    simp [parse_coordinate, h]
  · intro cs h1 h2
    simp [parse_coordinate, parse_coordinate_body, h1, h2]

/-- Claim C9 witness: the string `1-2` passes the decimal pre-check but makes
`float` raise, giving `none`; the string `abc` fails the pre-check and
matches no pattern, also giving `none`. -/
theorem parse_coordinate_exception_to_none_witness :
    parse_coordinate ['1', '-', '2'] = none ∧ parse_coordinate ['a', 'b', 'c'] = none :=
  ⟨parse_coordinate_exception_to_none.1 ['1', '-', '2'] rfl,
   parse_coordinate_exception_to_none.2 ['a', 'b', 'c'] rfl rfl⟩

/-- A legacy CSV row after its source's column rename, in the common
schema `측정소코드, 측정소명, 년도, 월, 경도, 위도, TN_mgL, TP_mgL`;
coordinates are kept as their raw string form (what `str()` sees) and the
two pollutant cells as numbers-or-missing. -/
structure LRow where
  code : Cell
  name : Cell
  year : Cell
  month : Cell
  lon : List Char
  lat : List Char
  tn : Option Rat
  tp : Option Rat
deriving DecidableEq, Repr

/-- On-disk state of the canonical cache and the backup directory. -/
structure FS where
  canonicalWQ : Option DataFrame
  canonicalST : Option DataFrame
  backups : List (String × DataFrame)
deriving DecidableEq, Repr

/-- One acquisition run's environment: the remote tier's outcomes, the
success of each file-system primitive (a `false` models the call
raising), the backup timestamp, and the five legacy CSV sources (`none`
models a missing file). -/
structure World where
  probeOk : Bool
  apiResult : Option DataFrame
  copyOk : Bool
  writeWQOk : Bool
  writeSTOk : Bool
  readWQOk : Bool
  ts : String
  river : Option (List LRow)
  agricultural : Option (List LRow)
  urban : Option (List LRow)
  industrial : Option (List LRow)
  reservoir : Option (List LRow)
deriving Repr

/-- Column lookup, the model of `data[col]`. -/
def getCol (t : DataFrame) (c : String) : List Cell :=
  match t.cols.indexOf? c with
  | some i => t.rows.map (fun r => r.getD i none)
  | none => []

/-- Cell of one row under a named column. -/
def cellAt (t : DataFrame) (r : List Cell) (c : String) : Cell :=
  match t.cols.indexOf? c with
  | some i => r.getD i none
  | none => none

/-- True for cells that are numeric or missing, the model of
`isinstance(x, (int, float)) or pd.isna(x)`. -/
def isNumOrNa : Cell → Bool
  | none => true
  | some (PVal.num _) => true
  | some (PVal.str _) => false

/-- Embedding of `WaterQualityCollector._validate_api_data`: the four
required columns must be present and the two pollutant columns must be
numeric-or-missing throughout; negative values are only logged, never
rejected. -/
def validate_api_data (t : DataFrame) : Bool :=
  (["ptNo", "ptNm", "itemTp", "itemTn"].all (fun c => t.cols.contains c))
    && (getCol t "itemTp").all isNumOrNa
    && (getCol t "itemTn").all isNumOrNa

/-- Embedding of `WaterQualityCollector._try_api_collection`: the
connectivity probe, then the remote fetch (`none` covers both a `None`
return and a raise), then the emptiness check and the validation gate. -/
def try_api_collection (w : World) : Option DataFrame :=
  if !w.probeOk then none
  else
    match w.apiResult with
    | none => none
    | some t => if dfEmpty t then none else if validate_api_data t then some t else none

/-- Embedding of `WaterQualityCollector._backup_existing_files`: copies
the existing canonical files into timestamped backup names.  Its `except`
swallows a raise from `shutil.copy2`, so when the copy fails the function
returns with the file system unchanged (and a failing first copy also
skips the second). -/
def backup_existing_files (w : World) (fs : FS) : FS :=
  if w.copyOk then
    let fs1 :=
      match fs.canonicalWQ with
      | some t => { fs with backups := fs.backups ++ [("water_quality_data_" ++ w.ts, t)] }
      | none => fs
    match fs.canonicalST with
    | some t => { fs1 with backups := fs1.backups ++ [("measurement_stations_" ++ w.ts, t)] }
    | none => fs1
  else fs

/-- Embedding of the station-directory extract in `_update_csv_files`:
select the five station columns and drop duplicate rows keeping the first
occurrence; `none` models the `KeyError` raise when a station column is
absent from the remote data. -/
def stationsExtract (t : DataFrame) : Option DataFrame :=
  let cs := ["ptNo", "ptNm", "addr", "latDgr", "lonDgr"]
  if cs.all (fun c => t.cols.contains c) then
    some ⟨cs, (t.rows.map (fun r => cs.map (fun c => cellAt t r c))).foldl
      (fun acc r => if r ∈ acc then acc else acc ++ [r]) []⟩
  else none

/-- Embedding of `WaterQualityCollector._update_csv_files`: back up, then
write the water-quality CSV, then extract and write the station CSV; any
raise is caught and reported as `false`, leaving whatever had already
been written in place. -/
def update_csv_files (w : World) (fs : FS) (data : DataFrame) : Bool × FS :=
  let fs1 := backup_existing_files w fs
  if !w.writeWQOk then (false, fs1)
  else
    let fs2 := { fs1 with canonicalWQ := some data }
    match stationsExtract data with
    | none => (false, fs2)
    | some st =>
      if !w.writeSTOk then (false, fs2)
      else (true, { fs2 with canonicalST := some st })

/-- Keep a legacy source's rows whose two pollutant cells are present,
the model of `dropna(subset=['TN_mgL', 'TP_mgL'])`. -/
def dropnaPoll (rows : List LRow) : List LRow :=
  rows.filter (fun r => r.tn.isSome && r.tp.isSome)

/-- The `combined_data` threading of `_load_local_csv_files`: a missing
file leaves the accumulator alone, the first present source seeds it, and
later present sources are concatenated. -/
def addSource (c : Option (List LRow)) (s : Option (List LRow)) : Option (List LRow) :=
  match s with
  | none => c
  | some rs =>
    match c with
    | none => some rs
    | some cs => some (cs ++ rs)

/-- Output columns of the stale-cache tier's final frame. -/
def localOutCols : List String :=
  ["ptNo", "ptNm", "latDgr", "lonDgr", "itemTp", "itemTn"]

/-- Convert one merged legacy row to an output row when both coordinates
normalize, the model of the `경도_변환/위도_변환` columns plus the
`dropna` on them and the final column selection. -/
def convRow (r : LRow) : Option (List Cell) :=
  match parse_coordinate r.lon, parse_coordinate r.lat with
  | some lo, some la =>
    some [r.code, r.name, some (PVal.num la), some (PVal.num lo),
      r.tp.map PVal.num, r.tn.map PVal.num]
  | _, _ => none

/-- Embedding of `WaterQualityCollector._load_local_csv_files`: river and
agricultural rows are merged as loaded; urban, industrial and reservoir
rows first pass the pollutant `dropna`; the merged rows then get their
coordinates normalized and rows with an unparseable coordinate are
dropped; `none` when no file exists or the merge is empty. -/
def load_local_csv_files (w : World) : Option DataFrame :=
  let c :=
    addSource (addSource (addSource (addSource (addSource none w.river)
      w.agricultural) (w.urban.map dropnaPoll)) (w.industrial.map dropnaPoll))
      (w.reservoir.map dropnaPoll)
  match c with
  | none => none
  | some rows =>
    if rows.isEmpty then none
    else some ⟨localOutCols, rows.filterMap convRow⟩

/-- Embedding of `WaterQualityCollector._load_existing_csv`: when the
canonical file exists it is read and returned directly (a failing read
raises into the surrounding `except`, giving `None` without attempting
the legacy tier); only when it does not exist is the legacy-CSV merge
attempted. -/
def load_existing_csv (w : World) (fs : FS) : Option DataFrame :=
  match fs.canonicalWQ with
  | some t => if w.readWQOk then some t else none
  | none => load_local_csv_files w

/-- Embedding of `WaterQualityCollector.collect_data`: remote tier first
(on success the cache refresh runs but its failure does not change the
returned data), then the existing-CSV path with its final emptiness
check; the pair carries the resulting file-system state. -/
def collect_data (w : World) (fs : FS) : Option DataFrame × FS :=
  match try_api_collection w with
  | some t =>
    if !(dfEmpty t) then
      let r := update_csv_files w fs t
      (some t, r.2)
    else
      (match load_existing_csv w fs with
       | some d => if !(dfEmpty d) then (some d, fs) else (none, fs)
       | none => (none, fs))
  | none =>
    match load_existing_csv w fs with
    | some d => if !(dfEmpty d) then (some d, fs) else (none, fs)
    | none => (none, fs)

/-- A world whose remote tier fails at the connectivity probe, whose
file-system primitives succeed, and whose legacy CSV files are absent. -/
def offlineWorld : World :=
  { probeOk := false, apiResult := none, copyOk := true, writeWQOk := true,
    writeSTOk := true, readWQOk := true, ts := "20250101_000000",
    river := none, agricultural := none, urban := none, industrial := none,
    reservoir := none }

/-- Replace only the five legacy CSV sources of a world. -/
def setLegacy (w : World) (rv ag ur ind rs : Option (List LRow)) : World :=
  { w with
    river := rv, agricultural := ag, urban := ur, industrial := ind,
    reservoir := rs }

/-- A canonical cache file that exists but holds zero data rows. -/
def emptyCanonical : DataFrame :=
  ⟨["ptNo", "ptNm", "addr", "latDgr", "lonDgr", "itemTp", "itemTn"], []⟩

/-- File system holding only the empty canonical cache file. -/
def emptyCanonicalFS : FS := ⟨some emptyCanonical, none, []⟩

/-- A successful remote-tier result implies a non-empty frame. -/
theorem try_api_some_nonempty (w : World) (t : DataFrame)
    (h : try_api_collection w = some t) : dfEmpty t = false := by
  unfold try_api_collection at h
  rcases hpr : w.probeOk with _ | _ <;> rw [hpr] at h <;> simp at h
  rcases har : w.apiResult with _ | u <;> rw [har] at h <;> simp at h
  rcases hde : dfEmpty u with _ | _ <;> rw [hde] at h <;> simp at h
  · rcases hv : validate_api_data u with _ | _ <;> rw [hv] at h <;> simp at h
    exact h ▸ hde

/-- Claim C1 counterexample: with the remote tier failing and a canonical cache
file that exists but is empty, `collect()` returns the empty sentinel
rather than the cache contents. -/
theorem collect_empty_cache_not_returned :
    try_api_collection offlineWorld = none
    ∧ emptyCanonicalFS.canonicalWQ = some emptyCanonical
    ∧ (collect_data offlineWorld emptyCanonicalFS).1 = none
    ∧ (collect_data offlineWorld emptyCanonicalFS).1 ≠ some emptyCanonical := by
  refine ⟨rfl, rfl, rfl, ?_⟩
  intro hcon
  exact Option.noConfusion
    ((rfl : (none : Option DataFrame) = (collect_data offlineWorld emptyCanonicalFS).1).trans hcon)

/-- Claim C1 (amended): the tiers are attempted strictly in order with
short-circuiting — a successful remote tier is returned directly, and
when the remote tier fails while a canonical cache file exists, loads
successfully and is non-empty, `collect()` returns exactly the cache
contents with the file system untouched, independently of the legacy CSV
sources (the tier-3 merge is never consulted). -/
theorem collect_tier_order (w : World) (fs : FS) (t : DataFrame) :
    (try_api_collection w = some t → (collect_data w fs).1 = some t)
    ∧ (try_api_collection w = none → fs.canonicalWQ = some t →
        w.readWQOk = true → dfEmpty t = false →
        collect_data w fs = (some t, fs)
        ∧ ∀ rv ag ur ind rs, collect_data (setLegacy w rv ag ur ind rs) fs = (some t, fs)) := by
  constructor
  · intro h
    have hne := try_api_some_nonempty w t h
    simp [collect_data, h, hne]
  · intro h hc hr he
    constructor
    · simp [collect_data, h, load_existing_csv, hc, hr, he]
    · intro rv ag ur ind rs
      have h' : try_api_collection (setLegacy w rv ag ur ind rs) = none := h
      have hr' : (setLegacy w rv ag ur ind rs).readWQOk = true := hr
      simp [collect_data, h', load_existing_csv, hc, hr', he]

/-- A non-empty canonical cache frame used to instantiate the tier-order
theorem. -/
def sampleCanonical : DataFrame :=
  ⟨["ptNo", "ptNm", "addr", "latDgr", "lonDgr", "itemTp", "itemTn"],
   [[some (PVal.str "A1"), some (PVal.str "StA"), some (PVal.str "addrA"),
     some (PVal.str "37.0"), some (PVal.str "127.0"), some (PVal.num 1), some (PVal.num 2)]]⟩

/-- Claim C1 witness: the tier-order theorem applied to the offline world and a
file system holding the non-empty sample cache. -/
theorem collect_tier_order_witness :
    collect_data offlineWorld ⟨some sampleCanonical, none, []⟩ = (some sampleCanonical, ⟨some sampleCanonical, none, []⟩) :=
  ((collect_tier_order offlineWorld ⟨some sampleCanonical, none, []⟩ sampleCanonical).2
    rfl rfl rfl rfl).1

/-- Canonical cache contents present before the failing refresh. -/
def oldCanonical : DataFrame :=
  ⟨["ptNo", "ptNm", "addr", "latDgr", "lonDgr", "itemTp", "itemTn"],
   [[some (PVal.str "OLD"), some (PVal.str "StOld"), some (PVal.str "addrOld"),
     some (PVal.str "37.0"), some (PVal.str "127.0"), some (PVal.str "0.1"), some (PVal.str "2.0")]]⟩

/-- Freshly fetched remote data, different from the old cache. -/
def newRemote : DataFrame :=
  ⟨["ptNo", "ptNm", "addr", "latDgr", "lonDgr", "itemTp", "itemTn"],
   [[some (PVal.str "NEW"), some (PVal.str "StNew"), some (PVal.str "addrNew"),
     some (PVal.str "36.0"), some (PVal.str "126.0"), some (PVal.str "0.2"), some (PVal.str "3.0")]]⟩

/-- A world in which `shutil.copy2` raises while both `to_csv` writes
succeed. -/
def backupFailWorld : World :=
  { offlineWorld with probeOk := true, apiResult := some newRemote, copyOk := false }

/-- Claim C2: `_backup_existing_files` swallows its own exception, so when the
backup copy of the existing canonical file fails, `_update_csv_files`
still overwrites the canonical file and the backup directory stays empty
— the overwrite is not prevented by the failed backup. -/
theorem overwrite_despite_failed_backup :
    (update_csv_files backupFailWorld ⟨some oldCanonical, none, []⟩ newRemote).2.canonicalWQ
        = some newRemote
    ∧ (update_csv_files backupFailWorld ⟨some oldCanonical, none, []⟩ newRemote).2.backups = []
    ∧ oldCanonical ≠ newRemote := by
  refine ⟨rfl, rfl, ?_⟩
  intro hcon
  exact absurd (congrArg DataFrame.rows hcon) (by decide)

/-- A river-source row with a missing total-phosphorus value but valid
plain-decimal coordinates. -/
def riverRowMissingTP : LRow :=
  ⟨some (PVal.str "R1"), some (PVal.str "StR"), none, none,
   ['1', '2', '7', '.', '0'], ['3', '7', '.', '0'], some 1, none⟩

/-- A world whose only legacy source is the river file holding the
single row with a missing pollutant value. -/
def riverOnlyWorld : World :=
  { offlineWorld with river := some [riverRowMissingTP] }

/-- Claim C7 counterexample: a river row with a missing total-phosphorus value
is not dropped — the stale-cache tier returns it, with a missing `itemTp`
cell, because the pollutant `dropna` is applied only to the urban,
industrial and reservoir sources. -/
theorem river_missing_pollutant_survives :
    riverRowMissingTP.tp = none
    ∧ load_local_csv_files riverOnlyWorld
        = some ⟨localOutCols,
            [[some (PVal.str "R1"), some (PVal.str "StR"), some (PVal.num 37),
              some (PVal.num 127), none, some (PVal.num 1)]]⟩ := by
  refine ⟨rfl, ?_⟩
  with_unfolding_all rfl

/-- Merge of the five legacy sources written from the (amended) spec:
river and agricultural rows enter as loaded, urban, industrial and
reservoir rows only after the pollutant `dropna`; a missing file
contributes nothing. -/
def mergedLegacy (w : World) : List LRow :=
  w.river.getD [] ++ w.agricultural.getD [] ++ dropnaPoll (w.urban.getD [])
    ++ dropnaPoll (w.industrial.getD []) ++ dropnaPoll (w.reservoir.getD [])

/-- Claim C7 (amended): the stale-cache tier drops rows with missing pollutant
values from the urban, industrial and reservoir sources only (river and
agricultural rows are merged unfiltered), and rows whose coordinates do
not normalize are dropped from the merged result; the tier yields `none`
exactly when no legacy file exists or the merge is empty. -/
theorem load_local_csv_files_characterization (w : World) :
    load_local_csv_files w
      = if (w.river.isSome || w.agricultural.isSome || w.urban.isSome
            || w.industrial.isSome || w.reservoir.isSome) = false then none
        else if (mergedLegacy w).isEmpty then none
        else some ⟨localOutCols, (mergedLegacy w).filterMap convRow⟩ := by
  rcases w with ⟨p, a, c, w1, w2, r, ts, rv, ag, ur, ind, rs⟩
  rcases rv with _ | rv <;> rcases ag with _ | ag <;> rcases ur with _ | ur <;>
    rcases ind with _ | ind <;> rcases rs with _ | rs <;>
    simp [load_local_csv_files, mergedLegacy, addSource, dropnaPoll]

/-- Claim C8: when the remote tier fails, no canonical cache file exists and
the legacy tier yields no usable rows (no files, or an empty merge, or
all rows filtered away), `collect()` returns the `None` sentinel with
the file system untouched — the defined empty result, not a raise (every
raising call site is wrapped by a handler in the model). -/
theorem collect_all_tiers_exhausted (w : World) (fs : FS)
    (h : try_api_collection w = none) (hc : fs.canonicalWQ = none)
    (hl : load_local_csv_files w = none
      ∨ ∃ t, load_local_csv_files w = some t ∧ dfEmpty t = true) :
    collect_data w fs = (none, fs) := by
  rcases hl with hl | ⟨t, hl, he⟩
  · simp [collect_data, h, load_existing_csv, hc, hl]
  · simp [collect_data, h, load_existing_csv, hc, hl, he]

/-- Claim C8 witness: the exhaustion theorem applied to the offline world with
no legacy files and an empty file system. -/
theorem collect_all_tiers_exhausted_witness :
    collect_data offlineWorld ⟨none, none, []⟩ = (none, ⟨none, none, []⟩) :=
  collect_all_tiers_exhausted offlineWorld ⟨none, none, []⟩ rfl rfl (Or.inl rfl)
